import Mathlib

/-!
Verification of the scene-graph / transform-stack renderer in
`src/Worksheet1/ecm3423_ws1.py`.

The OpenGL fixed-function state touched by the program (current modelview
matrix, matrix stack, current color, emitted vertex stream) is embedded as an
explicit `GLState`; the model classes (`BaseModel`, `TriangleModel`, `Tree`,
`House`) become an inductive `Model`; the pygame main loop (`Scene.run`,
`Scene.handleInput`, `Scene.draw`) becomes an explicit step function over a
loop state, driven by a list of per-iteration inputs (events, key state,
elapsed milliseconds).  Scalars are real numbers; the trigonometric rotation
and the real division make the semantic functions noncomputable, every
structural definition stays computable.
-/

/-- A 3-component vector of reals, standing for the float triples used
throughout the source (positions, colors, pan offsets, vertices). -/
@[ext]
structure Vec3 where
  x : ℝ
  y : ℝ
  z : ℝ

/-- Componentwise addition of `Vec3`, as performed by
`position[i] + offset` in `applyParameters` (line 130). -/
def Vec3.add (a b : Vec3) : Vec3 := ⟨a.x + b.x, a.y + b.y, a.z + b.z⟩

instance : Add Vec3 := ⟨Vec3.add⟩

/-- The zero vector: the initial pan state `x_offset, y_offset, z_offset = 0, 0, 0`
(line 10). -/
def Vec3.zero : Vec3 := ⟨0, 0, 0⟩

/-- The effect of `glTranslate(t.x, t.y, t.z)` on a vertex in the local frame:
translation by `t`. -/
def translateV (t v : Vec3) : Vec3 := ⟨t.x + v.x, t.y + v.y, t.z + v.z⟩

/-- The effect of `glRotate(deg, 0, 0, 1)` (line 131) on a vertex: rotation by
`deg` degrees about the z axis. -/
noncomputable def rotZ (deg : ℝ) (v : Vec3) : Vec3 :=
  ⟨Real.cos (deg * Real.pi / 180) * v.x - Real.sin (deg * Real.pi / 180) * v.y,
   Real.sin (deg * Real.pi / 180) * v.x + Real.cos (deg * Real.pi / 180) * v.y,
   v.z⟩

/-- The effect of `glScale(s, s, s)` (line 134) on a vertex: uniform scaling. -/
def scaleU (s : ℝ) (v : Vec3) : Vec3 := ⟨s * v.x, s * v.y, s * v.z⟩

/-- The OpenGL state the program manipulates: the current (composed) modelview
transform as a function on vertices, the saved matrix stack, the current
color, the vertex stream emitted since the last clear (world position paired
with the color it was drawn with), and counters of push/pop calls. -/
structure GLState where
  current : Vec3 → Vec3
  stack : List (Vec3 → Vec3)
  color : Vec3
  output : List (Vec3 × Vec3)
  pushes : ℕ
  pops : ℕ

/-- `glPushMatrix()`: saves the current matrix on the stack.  It does NOT save
the current color: the color is an attribute, not part of the matrix stack. -/
def glPushMatrix (s : GLState) : GLState :=
  { s with stack := s.current :: s.stack, pushes := s.pushes + 1 }

/-- `glPopMatrix()`: restores the top saved matrix.  On an empty stack OpenGL
records `GL_STACK_UNDERFLOW` and leaves the matrix unchanged. -/
def glPopMatrix (s : GLState) : GLState :=
  match s.stack with
  | [] => { s with pops := s.pops + 1 }
  | m :: rest => { s with current := m, stack := rest, pops := s.pops + 1 }

/-- `glTranslate(t)`: post-multiplies the current matrix by a translation, so
a vertex `v` is subsequently mapped to `current (translateV t v)`. -/
def glTranslate (t : Vec3) (s : GLState) : GLState :=
  { s with current := fun v => s.current (translateV t v) }

/-- `glRotate(deg, 0, 0, 1)`: post-multiplies the current matrix by a rotation
about z. -/
noncomputable def glRotate (deg : ℝ) (s : GLState) : GLState :=
  { s with current := fun v => s.current (rotZ deg v) }

/-- `glScale(k, k, k)`: post-multiplies the current matrix by a uniform
scale. -/
def glScale (k : ℝ) (s : GLState) : GLState :=
  { s with current := fun v => s.current (scaleU k v) }

/-- `glColor(c)`: sets the current color. -/
def glColor (c : Vec3) (s : GLState) : GLState := { s with color := c }

/-- `glVertex(v)` inside a `glBegin(GL_TRIANGLES)` block (line 159): emits the
vertex transformed by the current matrix, painted with the current color. -/
def glVertex (v : Vec3) (s : GLState) : GLState :=
  { s with output := s.output ++ [(s.current v, s.color)] }

/-- `glClear(GL_COLOR_BUFFER_BIT)` (line 56): empties the frame's rendered
content; the vertex stream of a frame is what is emitted between the clear
and the buffer flip. -/
def glClear (s : GLState) : GLState := { s with output := [] }

/-- The GL state at context creation: identity modelview matrix, empty stack,
default color white `(1,1,1)`, nothing emitted. -/
def initGL : GLState :=
  { current := id, stack := [], color := ⟨1, 1, 1⟩, output := [],
    pushes := 0, pops := 0 }

/-- The pose parameters stored by `BaseModel.__init__` (lines 110-125):
position, orientation (degrees), uniform scale, color. -/
structure Params where
  position : Vec3
  orientation : ℝ
  scale : ℝ
  color : Vec3

/-- The translation vector passed to `glTranslate` on line 130:
`(position[0]+x_offset, position[1]+y_offset, position[2]+z_offset)`,
i.e. the node's position plus the global pan state. -/
def panTranslation (p : Params) (pan : Vec3) : Vec3 := p.position + pan

/-- `BaseModel.applyParameters` (lines 127-137): translate by
`position + pan`, rotate by `orientation` about z, scale uniformly, then set
the color. -/
noncomputable def applyParameters (pan : Vec3) (p : Params) (s : GLState) : GLState :=
  glColor p.color (glScale p.scale (glRotate p.orientation
    (glTranslate (panTranslation p pan) s)))

/-- The two kinds of model the program draws: a leaf with a vertex list drawn
by `BaseModel.draw` (`TriangleModel`), and a composite with a component list
drawn by `Tree.draw` / `House.draw`. -/
inductive Model where
  | triangle : Params → List Vec3 → Model
  | composite : Params → List Model → Model

/-- `TriangleModel.__init__` (lines 174-179): stores the pose via
`BaseModel.__init__` and stores the given vertices unchanged — there is no
validation of the vertex count and no error path. -/
def triangleModelInit (p : Params) (vertices : List Vec3) : Model :=
  Model.triangle p vertices

/-- Emits all vertices of a leaf model: the loop over `self.vertices` between
`glBegin` and `glEnd` (lines 153-162). -/
def emitVertices : List Vec3 → GLState → GLState
  | [], s => s
  | v :: vs, s => emitVertices vs (glVertex v s)

mutual

/-- `BaseModel.draw` (lines 140-165) for leaves and `Tree.draw` /
`House.draw` (lines 194-204 / 225-235) for composites: push the matrix, apply
this node's parameters, emit own vertices resp. draw each component in order,
pop the matrix. -/
noncomputable def drawModel (pan : Vec3) : Model → GLState → GLState
  | Model.triangle p vs, s =>
      glPopMatrix (emitVertices vs (applyParameters pan p (glPushMatrix s)))
  | Model.composite p cs, s =>
      glPopMatrix (drawList pan cs (applyParameters pan p (glPushMatrix s)))

/-- The `for component in self.components: component.draw()` loop
(lines 201-202). -/
noncomputable def drawList (pan : Vec3) : List Model → GLState → GLState
  | [], s => s
  | m :: ms, s => drawList pan ms (drawModel pan m s)

end

/-- `Scene.draw` (lines 49-66): clear, draw every model in list order, flip
(the flip presents the frame and does not change the modelled state). -/
noncomputable def sceneDraw (pan : Vec3) (models : List Model) (s : GLState) : GLState :=
  drawList pan models (glClear s)

/-- The default vertex array of `TriangleModel.__init__` (line 174):
`[[0,1,0],[0,0,0],[1,1,0]]`. -/
def defaultTriVertices : List Vec3 := [⟨0, 1, 0⟩, ⟨0, 0, 0⟩, ⟨1, 1, 0⟩]

/-- The five components built by `Tree.__init__` (lines 186-192).  Components
two and three are written with the default vertex data the source leaves to
the default argument. -/
def treeComponents : List Model :=
  [ triangleModelInit ⟨⟨0, 0, 0⟩, -45, 0.5, ⟨0, 1, 0⟩⟩ [⟨0, 1, 0⟩, ⟨0, 0, 0⟩, ⟨1, 1, 0⟩],
    triangleModelInit ⟨⟨0, 0.25, 0⟩, -45, 0.5, ⟨0, 1, 0⟩⟩ defaultTriVertices,
    triangleModelInit ⟨⟨0, 0.5, 0⟩, -45, 0.5, ⟨0, 1, 0⟩⟩ defaultTriVertices,
    triangleModelInit ⟨⟨0.25, -0.25, 0⟩, 0, 0.25, ⟨0.6, 0.2, 0.2⟩⟩ defaultTriVertices,
    triangleModelInit ⟨⟨0.5, 0, 0⟩, -180, 0.25, ⟨0.6, 0.2, 0.2⟩⟩ defaultTriVertices ]

/-- `Tree.__init__` (lines 182-192): a composite with the five fixed
components; the `BaseModel` defaults give color `(1,1,1)`. -/
def mkTree (position : Vec3) (orientation scale : ℝ) : Model :=
  Model.composite ⟨position, orientation, scale, ⟨1, 1, 1⟩⟩ treeComponents

/-- The key-down state of the four directional keys read by
`pygame.key.get_pressed()` in `Scene.handleInput` (line 73). -/
structure Keys where
  up : Bool
  down : Bool
  left : Bool
  right : Bool

/-- `Scene.handleInput` (lines 68-81): four independent `if` statements, in
source order, each adding `±0.25 * deltaTime` to one pan axis — `K_UP`
decreases `y_offset`, `K_DOWN` increases it, `K_LEFT` increases `x_offset`,
`K_RIGHT` decreases it.  `z_offset` is never written. -/
def handleInput (keys : Keys) (delta : ℝ) (pan : Vec3) : Vec3 :=
  let p1 := if keys.up then ⟨pan.x, pan.y - 0.25 * delta, pan.z⟩ else pan
  let p2 := if keys.down then ⟨p1.x, p1.y + 0.25 * delta, p1.z⟩ else p1
  let p3 := if keys.left then ⟨p2.x + 0.25 * delta, p2.y, p2.z⟩ else p2
  if keys.right then ⟨p3.x - 0.25 * delta, p3.y, p3.z⟩ else p3

/-- What one iteration of the `while running` loop (lines 92-101) is given
from outside: whether `pygame.event.get()` contains a `QUIT` event, the key
state `pygame.key.get_pressed()` returns, and the elapsed milliseconds
`gameClock.get_time()` reports after `gameClock.tick()`. -/
structure FrameInput where
  quitEvent : Bool
  keys : Keys
  elapsedMs : ℝ

/-- The mutable globals the loop threads from one iteration to the next:
the pan state `(x_offset, y_offset, z_offset)` and `deltaTime`. -/
structure LoopState where
  pan : Vec3
  delta : ℝ

/-- What one loop iteration did, in body order: the pan state the draw pass
observed, the `deltaTime` value `handleInput` used, the pan state after
`handleInput`, and the `deltaTime` stored by `gameClock.get_time()/1000`. -/
structure FrameRecord where
  drawPan : Vec3
  deltaUsed : ℝ
  panAfter : Vec3
  deltaNew : ℝ

/-- The body of one iteration of `Scene.run` (lines 98-101): `self.draw()`
reads the current pan state, then `self.handleInput()` updates it using the
current `deltaTime`, then `gameClock.tick()` and
`deltaTime = gameClock.get_time()/1000` store the new delta. -/
noncomputable def stepFrame (inp : FrameInput) (s : LoopState) : LoopState × FrameRecord :=
  let pan2 := handleInput inp.keys s.delta s.pan
  let d2 := inp.elapsedMs / 1000
  (⟨pan2, d2⟩, ⟨s.pan, s.delta, pan2, d2⟩)

/-- `Scene.run` (lines 83-101) driven by a list of per-iteration inputs: each
iteration first drains the event queue (a `QUIT` event sets `running = False`
— line 94-96), then runs the body regardless; the `while running` condition
is only re-checked at the top of the next iteration, so the iteration that
sees `QUIT` is the last one executed.  An exhausted input list ends the
modelled trace. -/
noncomputable def runLoop (s : LoopState) : List FrameInput → List FrameRecord
  | [] => []
  | inp :: rest =>
      let sr := stepFrame inp s
      if inp.quitEvent then [sr.2] else sr.2 :: runLoop sr.1 rest

/-- The module-level initial values (lines 10 and 13): pan `(0,0,0)` and
`deltaTime = 16.66`. -/
noncomputable def initLoopState : LoopState := ⟨Vec3.zero, 16.66⟩

/-- The prefix of the input list the loop actually consumes: everything up to
and including the first iteration whose event queue holds `QUIT`. -/
def takeThroughQuit : List FrameInput → List FrameInput
  | [] => []
  | inp :: rest => if inp.quitEvent then [inp] else inp :: takeThroughQuit rest

/-- Runs the loop body on every given input with no exit check: the
reference against which `runLoop`'s stopping behaviour is stated. -/
noncomputable def runAllFrames (s : LoopState) : List FrameInput → List FrameRecord
  | [] => []
  | inp :: rest => (stepFrame inp s).2 :: runAllFrames (stepFrame inp s).1 rest

/-!
Object identity of vertex arrays.  `TriangleModel.__init__`'s `vertices`
parameter has the mutable default `np.array([[0,1,0],[0,0,0],[1,1,0]],'f')`
(line 174); in Python a default argument is evaluated once, when the `def`
statement runs, so every call that omits `vertices` binds the very same array
object, while every explicit `np.array(...)` call at a call site builds a new
one.  A heap of arrays indexed by allocation order makes this sharing
observable. -/

/-- The allocated vertex arrays, indexed by allocation order; an index into
`arrays` stands for the identity of one numpy array object. -/
structure PyHeap where
  arrays : List (List Vec3)

/-- Evaluating `np.array(vs, 'f')`: allocates a fresh array object and
returns its identity. -/
def PyHeap.alloc (h : PyHeap) (vs : List Vec3) : PyHeap × ℕ :=
  (⟨h.arrays ++ [vs]⟩, h.arrays.length)

/-- The heap after the module loads: the single evaluation of the default
`np.array` in the `def __init__` line of `TriangleModel`. -/
def moduleLoadHeap : PyHeap × ℕ := PyHeap.alloc ⟨[]⟩ defaultTriVertices

/-- `TriangleModel(...)` as far as vertex-array identity is concerned: a call
that passes no `vertices` argument binds the pre-existing default array
`defaultId`; a call that passes `np.array(vs, 'f')` allocates a fresh array.
Returns the heap after the call and the identity of the array the new
instance stores in `self.vertices` (line 179). -/
def triangleModelNew (h : PyHeap) (defaultId : ℕ) (explicitVertices : Option (List Vec3)) :
    PyHeap × ℕ :=
  match explicitVertices with
  | none => (h, defaultId)
  | some vs => h.alloc vs

/-!  Concrete scenes and inputs the theorems below evaluate the program on. -/

/-- The world offset the spec's transform-composition property claims for a
child at local position `p` under a composite at `P` with orientation `O`,
uniform scale `S` and pan state `pan`: written from the spec's words
`S·(rotate(O)·p) + P + PanState`. -/
noncomputable def specChildWorld (P : Vec3) (O S : ℝ) (p pan : Vec3) : Vec3 :=
  scaleU S (rotZ O p) + P + pan

/-- A composite at the origin with orientation 0 and scale 2 holding one
single-vertex child at the origin: the scene on which the spec's
transform-composition formula is evaluated under a nonzero pan. -/
def c1Scene : Model :=
  Model.composite ⟨⟨0, 0, 0⟩, 0, 2, ⟨1, 1, 1⟩⟩
    [Model.triangle ⟨⟨0, 0, 0⟩, 0, 1, ⟨1, 1, 1⟩⟩ [⟨0, 0, 0⟩]]

/-- A `TriangleModel` built with four vertices: the constructor performs no
vertex-count validation. -/
def fourVertexModel : Model :=
  triangleModelInit ⟨Vec3.zero, 0, 1, ⟨1, 1, 1⟩⟩
    [⟨0, 1, 0⟩, ⟨0, 0, 0⟩, ⟨1, 1, 0⟩, ⟨1, 0, 0⟩]

/-- No directional key held down. -/
def noKeys : Keys := ⟨false, false, false, false⟩

/-- The default `FrameRecord` positional lookups fall back to. -/
def noRec : FrameRecord := ⟨Vec3.zero, 0, Vec3.zero, 0⟩

/-- The default `FrameInput` positional lookups fall back to. -/
def noInput : FrameInput := ⟨false, noKeys, 0⟩

/-- An iteration whose event queue holds `QUIT` while the up key is down and
the clock reports 100 ms. -/
def quitUpInput : FrameInput := ⟨true, ⟨true, false, false, false⟩, 100⟩

/-- Two quiet iterations, the first with the up key held: concrete loop input
used to instantiate the loop theorems. -/
def twoFrames : List FrameInput :=
  [⟨false, ⟨true, false, false, false⟩, 100⟩, ⟨false, noKeys, 50⟩]

/-!  Derived characterizations of the drawing functions.  -/

/-- The local transform one node composes onto the current matrix in
`applyParameters`: translate by `position + pan`, rotate, scale, in the order
of lines 130-134. -/
noncomputable def nodeLocal (pan : Vec3) (p : Params) (v : Vec3) : Vec3 :=
  translateV (panTranslation p pan) (rotZ p.orientation (scaleU p.scale v))

mutual

/-- How many `glPushMatrix` calls drawing a model performs: one per node. -/
def nodeCount : Model → ℕ
  | Model.triangle _ _ => 1
  | Model.composite _ cs => 1 + nodeListCount cs

def nodeListCount : List Model → ℕ
  | [] => 0
  | m :: ms => nodeCount m + nodeListCount ms

end

mutual

/-- The last color `glColor` is given while drawing a model: the model's own
color when it is a leaf or a childless composite, otherwise the last color
set while drawing its final child. -/
def lastColor : Model → Vec3
  | Model.triangle p _ => p.color
  | Model.composite p cs => lastColorFrom p.color cs

def lastColorFrom : Vec3 → List Model → Vec3
  | c, [] => c
  | _, m :: ms => lastColorFrom (lastColor m) ms

end

mutual

/-- The vertex stream drawing a model emits, as a function of the pan state
and the current matrix `cur` in force when its `draw` is entered. -/
noncomputable def emitModel (pan : Vec3) (cur : Vec3 → Vec3) : Model → List (Vec3 × Vec3)
  | Model.triangle p vs => vs.map (fun v => (cur (nodeLocal pan p v), p.color))
  | Model.composite p cs => emitList pan (fun v => cur (nodeLocal pan p v)) cs

noncomputable def emitList (pan : Vec3) (cur : Vec3 → Vec3) : List Model → List (Vec3 × Vec3)
  | [] => []
  | m :: ms => emitModel pan cur m ++ emitList pan cur ms

end

theorem applyParameters_eq (pan : Vec3) (p : Params) (s : GLState) :
    applyParameters pan p s =
      { s with current := fun v => s.current (nodeLocal pan p v), color := p.color } := rfl

theorem emitVertices_eq (vs : List Vec3) (s : GLState) :
    emitVertices vs s =
      { s with output := s.output ++ vs.map (fun v => (s.current v, s.color)) } := by
  induction vs generalizing s with
  | nil => simp [emitVertices]
  | cons v vs ih => simp [emitVertices, glVertex, ih]

mutual

/-- Drawing a model leaves the current matrix and the stack exactly as they
were, appends its vertex stream to the output, sets the color to the last
color drawn, and performs equally many pushes and pops (one per node). -/
theorem drawModel_spec (pan : Vec3) (m : Model) (s : GLState) :
    drawModel pan m s =
      { current := s.current, stack := s.stack, color := lastColor m,
        output := s.output ++ emitModel pan s.current m,
        pushes := s.pushes + nodeCount m, pops := s.pops + nodeCount m } := by
  match m with
  | Model.triangle p vs =>
      simp [drawModel, glPushMatrix, applyParameters_eq, emitVertices_eq,
        glPopMatrix, emitModel, lastColor, nodeCount]
  | Model.composite p cs =>
      rw [drawModel, glPushMatrix, applyParameters_eq]
      rw [drawList_spec]
      simp [glPopMatrix, emitModel, lastColor, nodeCount]
      omega

theorem drawList_spec (pan : Vec3) (ms : List Model) (s : GLState) :
    drawList pan ms s =
      { current := s.current, stack := s.stack, color := lastColorFrom s.color ms,
        output := s.output ++ emitList pan s.current ms,
        pushes := s.pushes + nodeListCount ms, pops := s.pops + nodeListCount ms } := by
  match ms with
  | [] => simp [drawList, lastColorFrom, emitList, nodeListCount]
  | m :: ms =>
      rw [drawList, drawModel_spec, drawList_spec]
      simp [lastColorFrom, emitList, nodeListCount]
      omega

end

theorem rotZ_zero (v : Vec3) : rotZ 0 v = v := by
  simp [rotZ]

theorem rotZ_origin (deg : ℝ) : rotZ deg ⟨0, 0, 0⟩ = ⟨0, 0, 0⟩ := by
  simp [rotZ]

theorem scaleU_origin (k : ℝ) : scaleU k ⟨0, 0, 0⟩ = ⟨0, 0, 0⟩ := by
  simp [scaleU]

/-- C2 counterexample: drawing a `Tree` from a state whose current color is
blue `(0,0,1)` leaves the color at the last component's brown
`(0.6,0.2,0.2)` — the color state is not bit-identical to what it was before
the call, because `glPushMatrix`/`glPopMatrix` save and restore only the
matrix. -/
theorem tree_draw_color_not_restored :
    (drawModel Vec3.zero (mkTree Vec3.zero 0 1)
        { initGL with color := ⟨0, 0, 1⟩ }).color ≠ (⟨0, 0, 1⟩ : Vec3) := by
  rw [drawModel_spec]
  simp [mkTree, lastColor, lastColorFrom, treeComponents, triangleModelInit, Vec3.ext_iff]
  norm_num

/-- C2 (amended): after any model's `draw` returns, the current matrix and
the matrix stack are exactly what they were before the call and the pushes
performed equal the pops performed (also for a childless composite) — but
the color state is not restored: it ends as the last color set during the
call (the model's own color for a leaf or a childless composite, otherwise
the last color set while drawing the final child). -/
theorem draw_restores_transform_not_color (pan : Vec3) (m : Model) (s : GLState) :
    (drawModel pan m s).current = s.current ∧
    (drawModel pan m s).stack = s.stack ∧
    (drawModel pan m s).pushes + s.pops = (drawModel pan m s).pops + s.pushes ∧
    (drawModel pan m s).color = lastColor m := by
  rw [drawModel_spec]
  simp
  omega

/-- C3 counterexample: constructing a `TriangleModel` with 4 vertices
succeeds and yields a drawable instance — drawing it emits all 4 vertices;
no `InvalidGeometry` error exists anywhere in the program. -/
theorem triangle_four_vertices_drawable :
    (drawModel Vec3.zero fourVertexModel initGL).output.length = 4 ∧ 4 ≠ 3 := by
  constructor
  · rw [drawModel_spec]
    simp [fourVertexModel, triangleModelInit, emitModel, initGL]
  · decide

/-- C3 (amended): `TriangleModel.__init__` accepts any vertex list — it
stores the vertices unvalidated and the instance is drawable, submitting
exactly one output vertex per stored vertex, whatever their number. -/
theorem triangleModelInit_no_validation (p : Params) (vs : List Vec3) (pan : Vec3) (s : GLState) :
    (drawModel pan (triangleModelInit p vs) s).output.length = s.output.length + vs.length := by
  rw [triangleModelInit, drawModel_spec]
  simp [emitModel]

/-- C8: `Scene.draw` run twice in a row with the same models and the same pan
state produces the identical vertex stream both times, and leaves the current
matrix and the stack as they were — there is no per-call state drift (in the
embedding the models themselves are values, so no draw call can mutate a
pose, a vertex or a child list). -/
theorem sceneDraw_idempotent (pan : Vec3) (models : List Model) (s : GLState) :
    (sceneDraw pan models (sceneDraw pan models s)).output =
      (sceneDraw pan models s).output ∧
    (sceneDraw pan models s).current = s.current ∧
    (sceneDraw pan models s).stack = s.stack := by
  simp only [sceneDraw, drawList_spec]
  simp [glClear]

theorem Vec3.add_def (a b : Vec3) : a + b = ⟨a.x + b.x, a.y + b.y, a.z + b.z⟩ := rfl

/-- The vertex stream of a composite holding a single one-vertex leaf, drawn
from the initial GL state: the composed transform applied to the vertex,
painted with the leaf's color. -/
theorem singleChild_output (P : Vec3) (O S : ℝ) (p pan c c2 : Vec3) (o s2 : ℝ) (v : Vec3) :
    (drawModel pan (Model.composite ⟨P, O, S, c⟩
        [Model.triangle ⟨p, o, s2, c2⟩ [v]]) initGL).output =
      [(translateV (P + pan) (rotZ O (scaleU S
          (translateV (p + pan) (rotZ o (scaleU s2 v))))), c2)] := by
  rw [drawModel_spec]
  simp [emitModel, emitList, nodeLocal, panTranslation, initGL]

/-- C1 counterexample: with pan state `(1,0,0)`, the child's vertex renders
at `(3,0,0)` — the pan is added by `applyParameters` at both hierarchy
levels and the composite's scale doubles the inner occurrence — while the
spec's formula `S·(rotate(O)·p) + P + PanState` predicts `(1,0,0)`. -/
theorem childWorld_formula_fails_with_pan :
    (drawModel ⟨1, 0, 0⟩ c1Scene initGL).output.map Prod.fst = [⟨3, 0, 0⟩] ∧
    specChildWorld ⟨0, 0, 0⟩ 0 2 ⟨0, 0, 0⟩ ⟨1, 0, 0⟩ ≠ (⟨3, 0, 0⟩ : Vec3) := by
  constructor
  · simp only [c1Scene]
    rw [singleChild_output]
    simp [Vec3.add_def, rotZ_zero, scaleU, translateV]
    norm_num
  · simp [specChildWorld, rotZ_origin, scaleU, Vec3.add_def, Vec3.ext_iff]

/-- C1 (amended): the rendered world position of a child vertex at the
child's local origin is `S·(rotate(O)·(p + PanState)) + (P + PanState)` —
the pan state is added at every hierarchy level, inside the shared
apply-parameters step — and with P=(1,0,0), O=0°, S=2, p=(0,1,0) and
PanState=(0,0,0) the child's world offset is (1,2,0) as the spec's numeric
example states. -/
theorem childWorld_composition :
    (∀ (P : Vec3) (O S : ℝ) (p pan c c2 : Vec3) (o s2 : ℝ),
      (drawModel pan (Model.composite ⟨P, O, S, c⟩
          [Model.triangle ⟨p, o, s2, c2⟩ [⟨0, 0, 0⟩]]) initGL).output.map Prod.fst =
        [scaleU S (rotZ O (p + pan)) + (P + pan)]) ∧
    (drawModel Vec3.zero (Model.composite ⟨⟨1, 0, 0⟩, 0, 2, ⟨1, 1, 1⟩⟩
        [Model.triangle ⟨⟨0, 1, 0⟩, 0, 1, ⟨1, 1, 1⟩⟩ [⟨0, 0, 0⟩]]) initGL).output.map
      Prod.fst = [⟨1, 2, 0⟩] := by
  constructor
  · intro P O S p pan c c2 o s2
    rw [singleChild_output]
    rw [scaleU_origin, rotZ_origin]
    simp only [List.map, List.cons.injEq, and_true]
    simp only [translateV, scaleU, rotZ, Vec3.add_def, Vec3.mk.injEq]
    refine ⟨by ring, by ring, by ring⟩
  · rw [singleChild_output]
    rw [scaleU_origin, rotZ_origin]
    simp [Vec3.zero, Vec3.add_def, rotZ_zero, scaleU, translateV]

/-- C5: in every `handleInput` call each pressed directional key adjusts
exactly its own pan axis by `±0.25 * delta` — up decreases `y_offset`, down
increases it, left increases `x_offset`, right decreases it — simultaneous
keys compose additively, the z axis is untouched, and with no key pressed
the pan state is unchanged. -/
theorem handleInput_additive (keys : Keys) (delta : ℝ) (pan : Vec3) :
    handleInput keys delta pan =
      ⟨pan.x + (if keys.left then 0.25 * delta else 0) -
          (if keys.right then 0.25 * delta else 0),
        pan.y - (if keys.up then 0.25 * delta else 0) +
          (if keys.down then 0.25 * delta else 0),
        pan.z⟩ ∧
    handleInput noKeys delta pan = pan := by
  constructor
  · rcases keys with ⟨u, d, l, r⟩
    cases u <;> cases d <;> cases l <;> cases r <;> simp [handleInput]
  · simp [handleInput, noKeys]

/-- C6 counterexample: two TriangleModels constructed without a `vertices`
argument both bind the single default array evaluated once when the `def`
ran — the second construction returns the same array identity as the first,
so their vertex storage is shared, not independent. -/
theorem default_triangles_alias :
    (triangleModelNew moduleLoadHeap.1 moduleLoadHeap.2 none).2 =
      (triangleModelNew
        (triangleModelNew moduleLoadHeap.1 moduleLoadHeap.2 none).1
        moduleLoadHeap.2 none).2 ∧
    (triangleModelNew moduleLoadHeap.1 moduleLoadHeap.2 none).2 = moduleLoadHeap.2 := by
  exact ⟨rfl, rfl⟩

/-- C6 (amended): a TriangleModel constructed without a `vertices` argument
stores the shared default array and allocates nothing, so all
default-constructed instances alias one another's vertex storage; a
construction with an explicit `np.array(...)` stores a fresh array in a new
heap slot (the index just past every existing array). -/
theorem triangle_vertices_aliasing (h : PyHeap) (d : ℕ) (vs : List Vec3) :
    triangleModelNew h d none = (h, d) ∧
    (triangleModelNew h d (some vs)).2 = h.arrays.length ∧
    (triangleModelNew h d (some vs)).1.arrays = h.arrays ++ [vs] := by
  exact ⟨rfl, rfl, rfl⟩

theorem runLoop_cons (s : LoopState) (inp : FrameInput) (rest : List FrameInput) :
    runLoop s (inp :: rest) =
      if inp.quitEvent then [(stepFrame inp s).2]
      else (stepFrame inp s).2 :: runLoop (stepFrame inp s).1 rest := rfl

theorem runLoop_head (s : LoopState) (inp : FrameInput) (rest : List FrameInput) :
    (runLoop s (inp :: rest)).getD 0 noRec = (stepFrame inp s).2 := by
  rw [runLoop_cons]
  by_cases h : inp.quitEvent <;> simp [h]

/-- C7 counterexample: when the very first iteration's event queue holds
`QUIT`, the loop still performs that iteration's draw (a record with the
observed pan exists), its input handling (the up key moves `y_offset` to
`-4.165`), and its clock update (`deltaTime` becomes `0.1`), before the
`while` condition stops it — draw/input/clock steps do occur after exit is
requested. -/
theorem quit_iteration_still_draws :
    (runLoop initLoopState [quitUpInput]).length = 1 ∧
    ((runLoop initLoopState [quitUpInput]).getD 0 noRec).drawPan = Vec3.zero ∧
    ((runLoop initLoopState [quitUpInput]).getD 0 noRec).panAfter.y = -4.165 ∧
    ((runLoop initLoopState [quitUpInput]).getD 0 noRec).deltaNew = 0.1 := by
  refine ⟨?_, ?_, ?_, ?_⟩ <;>
    simp [runLoop, quitUpInput, stepFrame, handleInput, initLoopState, Vec3.zero] <;>
    norm_num

/-- C7 (amended): the loop polls the exit signal once at the top of each
iteration and stops right after the iteration in which it first arrives —
that final iteration still runs its full body (draw, then input handling,
then the clock update) — and there is no other exit path: the executed
iterations are exactly the input prefix up to and including the first quit,
each processed by the one iteration body. -/
theorem runLoop_exits_after_quit_iteration (s : LoopState) (inps : List FrameInput) :
    runLoop s inps = runAllFrames s (takeThroughQuit inps) := by
  induction inps generalizing s with
  | nil => rfl
  | cons inp rest ih =>
      by_cases hq : inp.quitEvent <;>
        simp [runLoop, takeThroughQuit, runAllFrames, hq, ih]

theorem handleInput_z (keys : Keys) (delta : ℝ) (pan : Vec3) :
    (handleInput keys delta pan).z = pan.z := by
  rcases keys with ⟨u, d, l, r⟩
  cases u <;> cases d <;> cases l <;> cases r <;> simp [handleInput]

theorem runLoop_body (s : LoopState) (inps : List FrameInput) (i : ℕ)
    (h : i < (runLoop s inps).length) :
    ((runLoop s inps).getD i noRec).panAfter =
      handleInput (inps.getD i noInput).keys
        ((runLoop s inps).getD i noRec).deltaUsed
        ((runLoop s inps).getD i noRec).drawPan ∧
    ((runLoop s inps).getD i noRec).deltaNew = (inps.getD i noInput).elapsedMs / 1000 := by
  induction inps generalizing s i with
  | nil => simp [runLoop] at h
  | cons inp rest ih =>
      by_cases hq : inp.quitEvent
      · rw [runLoop_cons, if_pos hq] at h ⊢
        have hi : i = 0 := by simpa using h
        subst hi
        simp [stepFrame]
      · rw [runLoop_cons, if_neg (by simp [hq])] at h ⊢
        cases i with
        | zero => simp [stepFrame]
        | succ j =>
            simp only [List.getD_cons_succ]
            simp only [List.length_cons] at h
            exact ih _ _ (by omega)

theorem runLoop_adjacent (s : LoopState) (inps : List FrameInput) (i : ℕ)
    (h : i + 1 < (runLoop s inps).length) :
    ((runLoop s inps).getD (i + 1) noRec).drawPan =
      ((runLoop s inps).getD i noRec).panAfter ∧
    ((runLoop s inps).getD (i + 1) noRec).deltaUsed =
      ((runLoop s inps).getD i noRec).deltaNew := by
  induction inps generalizing s i with
  | nil => simp [runLoop] at h
  | cons inp rest ih =>
      by_cases hq : inp.quitEvent
      · rw [runLoop_cons, if_pos hq] at h
        simp at h
      · rw [runLoop_cons, if_neg (by simp [hq])] at h ⊢
        cases i with
        | zero =>
            cases rest with
            | nil => simp [runLoop] at h
            | cons inp2 rest2 =>
                simp only [List.getD_cons_succ, List.getD_cons_zero]
                rw [runLoop_head]
                simp [stepFrame]
        | succ j =>
            simp only [List.getD_cons_succ]
            simp only [List.length_cons] at h
            exact ih _ _ (by omega)

theorem runLoop_pan_z (s : LoopState) (hz : s.pan.z = 0) (inps : List FrameInput) (i : ℕ)
    (h : i < (runLoop s inps).length) :
    ((runLoop s inps).getD i noRec).drawPan.z = 0 ∧
    ((runLoop s inps).getD i noRec).panAfter.z = 0 := by
  induction inps generalizing s i with
  | nil => simp [runLoop] at h
  | cons inp rest ih =>
      by_cases hq : inp.quitEvent
      · rw [runLoop_cons, if_pos hq] at h ⊢
        have hi : i = 0 := by simpa using h
        subst hi
        simp [stepFrame, handleInput_z, hz]
      · rw [runLoop_cons, if_neg (by simp [hq])] at h ⊢
        cases i with
        | zero => simp [stepFrame, handleInput_z, hz]
        | succ j =>
            simp only [List.getD_cons_succ]
            simp only [List.length_cons] at h
            refine ih (stepFrame inp s).1 ?_ _ (by omega)
            simp [stepFrame, handleInput_z, hz]

/-- C4: the draw pass runs strictly before `handleInput` in each iteration:
frame `i+1`'s draw observes exactly the pan state frame `i`'s input step
left behind, and frame `i`'s input step itself starts from the pan state
frame `i`'s draw observed — so a key press first affects rendering on the
following frame. -/
theorem draw_observes_previous_input (s : LoopState) (inps : List FrameInput) (i : ℕ) :
    (i + 1 < (runLoop s inps).length →
      ((runLoop s inps).getD (i + 1) noRec).drawPan =
        ((runLoop s inps).getD i noRec).panAfter) ∧
    (i < (runLoop s inps).length →
      ((runLoop s inps).getD i noRec).panAfter =
        handleInput (inps.getD i noInput).keys
          ((runLoop s inps).getD i noRec).deltaUsed
          ((runLoop s inps).getD i noRec).drawPan) :=
  ⟨fun h => (runLoop_adjacent s inps i h).1, fun h => (runLoop_body s inps i h).1⟩

/-- Concrete instance of `draw_observes_previous_input` on a two-frame run. -/
theorem draw_observes_previous_input_witness :
    (0 + 1 < (runLoop initLoopState twoFrames).length ∧
      ((runLoop initLoopState twoFrames).getD (0 + 1) noRec).drawPan =
        ((runLoop initLoopState twoFrames).getD 0 noRec).panAfter) ∧
    (0 < (runLoop initLoopState twoFrames).length ∧
      ((runLoop initLoopState twoFrames).getD 0 noRec).panAfter =
        handleInput (twoFrames.getD 0 noInput).keys
          ((runLoop initLoopState twoFrames).getD 0 noRec).deltaUsed
          ((runLoop initLoopState twoFrames).getD 0 noRec).drawPan) := by
  have hlen : (runLoop initLoopState twoFrames).length = 2 := by
    simp [runLoop, twoFrames, stepFrame, noKeys]
  exact ⟨⟨by omega, (draw_observes_previous_input initLoopState twoFrames 0).1 (by omega)⟩,
         ⟨by omega, (draw_observes_previous_input initLoopState twoFrames 0).2 (by omega)⟩⟩

/-- C9: the first loop iteration's `handleInput` scales pan changes by the
module-level initial `deltaTime = 16.66` (a milliseconds-magnitude constant
— the clock has not ticked yet), so the up key held on frame one moves
`y_offset` by `0.25 * 16.66 = 4.165` downward; from the second iteration
onward the delta used is the previous iteration's measured elapsed time
divided by 1000. -/
theorem first_frame_uses_initial_delta :
    (∀ (k : FrameInput) (rest : List FrameInput),
      ((runLoop initLoopState (k :: rest)).getD 0 noRec).deltaUsed = 16.66) ∧
    (∀ (q : Bool) (ms : ℝ) (rest : List FrameInput),
      ((runLoop initLoopState
          (⟨q, ⟨true, false, false, false⟩, ms⟩ :: rest)).getD 0 noRec).panAfter.y =
        -(0.25 * 16.66)) ∧
    (0.25 * (16.66 : ℝ) = 4.165) ∧
    (∀ (s : LoopState) (inps : List FrameInput) (i : ℕ),
      i + 1 < (runLoop s inps).length →
      ((runLoop s inps).getD (i + 1) noRec).deltaUsed =
        (inps.getD i noInput).elapsedMs / 1000) := by
  refine ⟨?_, ?_, by norm_num, ?_⟩
  · intro k rest
    rw [runLoop_head]
    simp [stepFrame, initLoopState]
  · intro q ms rest
    rw [runLoop_head]
    simp [stepFrame, initLoopState, handleInput, Vec3.zero]
  · intro s inps i h
    rw [(runLoop_adjacent s inps i h).2, (runLoop_body s inps i (by omega)).2]

/-- Concrete instance of `first_frame_uses_initial_delta`: on a two-frame
run, frame two's delta is frame one's elapsed milliseconds over 1000. -/
theorem first_frame_uses_initial_delta_witness :
    0 + 1 < (runLoop initLoopState twoFrames).length ∧
    ((runLoop initLoopState twoFrames).getD (0 + 1) noRec).deltaUsed =
      (twoFrames.getD 0 noInput).elapsedMs / 1000 := by
  have hlen : (runLoop initLoopState twoFrames).length = 2 := by
    simp [runLoop, twoFrames, stepFrame, noKeys]
  exact ⟨by omega,
    first_frame_uses_initial_delta.2.2.2 initLoopState twoFrames 0 (by omega)⟩

/-- C10: the z pan axis is never mutated — `handleInput` preserves
`z_offset` under every key state, every frame record of a run from the
initial state has pan z equal to 0 both at draw time and after input
handling, and the translation `applyParameters` applies under a pan with z
zero has z exactly the node's own position z. -/
theorem pan_z_never_mutated :
    (∀ (keys : Keys) (delta : ℝ) (pan : Vec3), (handleInput keys delta pan).z = pan.z) ∧
    (∀ (inps : List FrameInput) (i : ℕ), i < (runLoop initLoopState inps).length →
      ((runLoop initLoopState inps).getD i noRec).drawPan.z = 0 ∧
      ((runLoop initLoopState inps).getD i noRec).panAfter.z = 0) ∧
    (∀ (p : Params) (pan : Vec3), pan.z = 0 → (panTranslation p pan).z = p.position.z) := by
  refine ⟨handleInput_z, ?_, ?_⟩
  · intro inps i h
    exact runLoop_pan_z initLoopState (by simp [initLoopState, Vec3.zero]) inps i h
  · intro p pan hz
    simp [panTranslation, Vec3.add_def, hz]

/-- Concrete instance of `pan_z_never_mutated` on a two-frame run and a node
at position `(1,2,3)` under pan `(5,6,0)`. -/
theorem pan_z_never_mutated_witness :
    (0 < (runLoop initLoopState twoFrames).length ∧
      ((runLoop initLoopState twoFrames).getD 0 noRec).drawPan.z = 0 ∧
      ((runLoop initLoopState twoFrames).getD 0 noRec).panAfter.z = 0) ∧
    ((⟨5, 6, 0⟩ : Vec3).z = 0 ∧
      (panTranslation ⟨⟨1, 2, 3⟩, 0, 1, ⟨1, 1, 1⟩⟩ ⟨5, 6, 0⟩).z =
        (Params.mk ⟨1, 2, 3⟩ 0 1 ⟨1, 1, 1⟩).position.z) := by
  have hlen : (runLoop initLoopState twoFrames).length = 2 := by
    simp [runLoop, twoFrames, stepFrame, noKeys]
  refine ⟨⟨by omega, pan_z_never_mutated.2.1 twoFrames 0 (by omega)⟩,
         ⟨rfl, pan_z_never_mutated.2.2 ⟨⟨1, 2, 3⟩, 0, 1, ⟨1, 1, 1⟩⟩ ⟨5, 6, 0⟩ rfl⟩⟩
